import Mathlib

/-!
Shallow embedding of the rssant worker service
(`src/rssant_worker/worker_service.py`) together with proofs about its
feed-sync, feed-discovery and story-enrichment pipelines.

Python strings and byte strings are modelled as `List Char` (so that
lengths and truncation behave like Python's `len` / slicing).  External
collaborators (DNS service, proxy policy, HTTP transport, raw feed
parser, checksum engine, HTML processors, schema validators, RPC result
sink) are modelled as components of an explicit environment record
`Env`; the worker-service code under verification is translated
line-by-line on top of that environment.
-/

namespace Rssant

/-- Python strings / bytes, modelled as lists of characters. -/
abbrev Str := List Char

/-- Turn a Lean string literal into the `Str` model. -/
def lit (s : String) : Str := s.data

/-- Python truthy `or` on optional strings: `a or b` where `None` and the
empty string are falsy. -/
def orStr (a b : Option Str) : Option Str :=
  match a with
  | some s => if s = [] then b else some s
  | none => b

/-- Rendering of an optional string inside an f-string (`None` renders as
the text `None`). -/
def infoStr : Option Str → Str
  | none => lit "None"
  | some s => s

/-- Python `str.strip()`: remove whitespace from both ends. -/
def pyStrip (s : Str) : Str :=
  ((s.dropWhile Char.isWhitespace).reverse.dropWhile Char.isWhitespace).reverse

/-- Python `'; '.join(xs)`. -/
def joinSemi : List Str → Str
  | [] => []
  | [x] => x
  | x :: xs => x ++ lit "; " ++ joinSemi xs

/-- `rssant_api.models.FeedStatus` members used by the worker service. -/
inductive FeedStatus
  | READY
  | UPDATING
  | ERROR
deriving DecidableEq, Repr

/-- A normalized story as produced by
`rssant_common.rss.get_story_of_feed_entry`; only the publish timestamp
is interpreted by the worker service (for sorting), the rest is opaque. -/
structure NStory where
  dt_published : Int
  payload : Str
deriving DecidableEq, Repr

/-- The feed attribute dictionary built by `_parse_found` and consumed by
`validate_feed` (an `AttrDict` in the source). -/
structure Feed where
  use_proxy : Bool
  url : Option Str
  content_length : Nat
  content_hash_base64 : Str
  etag : Option Str
  last_modified : Option Str
  encoding : Str
  response_status : Int
  title : Option Str
  link : Option Str
  author : Option Str
  icon : Option Str
  description : Option Str
  dt_updated : Str
  version : Str
  storys : List NStory
  checksum_data_base64 : Str
  warnings : Option Str
deriving DecidableEq, Repr

/-- `rssant_feedlib.FeedResponse`: result of a (conditional) feed fetch.
An absent body is modelled as the empty list (Python `not content` treats
`None` and `b''` alike). -/
structure FeedResponse where
  status : Int
  ok : Bool
  content : Str
  url : Str
  etag : Option Str
  last_modified : Option Str
  encoding : Str
  use_proxy : Bool
deriving DecidableEq, Repr

/-- Response of the async story reader (`AsyncFeedReader.read`).  A falsy
response object is modelled at the call sites as `Option StoryResponse`
being `none`. -/
structure StoryResponse where
  url : Option Str
  ok : Bool
  content : Str
  encoding : Str
  status : Int
  use_proxy : Bool
deriving DecidableEq, Repr

/-- `rssant_feedlib.RawFeedResult`: raw entries plus parser warnings.
Raw entries are opaque to the worker service. -/
structure RawFeedResult where
  storys : List Str
  warnings : List Str
deriving DecidableEq, Repr

/-- Feed-level attributes of a `FeedParser` result (`result.feed[...]`). -/
structure ParsedFeedInfo where
  title : Option Str
  home_url : Option Str
  author_name : Option Str
  icon_url : Option Str
  description : Option Str
  dt_updated : Str
  version : Str
deriving DecidableEq, Repr

/-- Result of the checksum-diffing `FeedParser(checksum).parse(raw)`:
feed attributes, only-new-or-changed entries, updated checksum. -/
structure ParseResult where
  feed : ParsedFeedInfo
  storys : List Str
  checksum : Str
deriving DecidableEq, Repr

/-- Outcome of `FeedFinder.find`: the optional `(response, raw_result)`
pair plus the messages emitted through the `message_handler` callback. -/
structure FinderOutcome where
  found : Option (FeedResponse × RawFeedResult)
  messages : List Str

/-- The schema of a story-enrichment result
(`SCHEMA_FETCH_STORY_RESULT`). -/
structure StoryResult where
  feed_id : Int
  offset : Nat
  url : Str
  response_status : Option Int
  use_proxy : Option Bool
  content : Option Str
  summary : Option Str
  sentence_count : Option Nat
  accept : Option Str
deriving DecidableEq, Repr

/-- Calls made on the Result Sink (`SERVICE_CLIENT.call`). -/
inductive SinkCall
  | update_feed_creation_status (feed_creation_id : Int) (status : FeedStatus)
  | save_feed_creation_result (feed_creation_id : Int) (messages : List Str)
      (feed : Option Feed)
  | update_feed_info (feed_id : Int) (status : Option FeedStatus)
      (response_status : Int) (warnings : Option Str)
  | update_feed (feed_id : Int) (feed : Feed) (is_refresh : Bool)
deriving DecidableEq, Repr

/-- Environment of external collaborators.  Every field models a function
or attribute of a collaborator the worker service composes; the claims
are proved for every environment, mirroring the spec's treatment of
these components as black boxes with contracts. -/
structure Env where
  /-- `DNS_SERVICE.is_resolved_url` -/
  is_resolved_url : Str → Bool
  /-- `rssant_common._proxy_helper.is_use_proxy_url` -/
  is_use_proxy_url : Str → Bool
  /-- `FeedReader.has_proxy` -/
  has_proxy : Bool
  /-- `AsyncFeedReader.has_proxy` -/
  async_has_proxy : Bool
  /-- outcome of the draw `random.random() < switch_prob` in `sync_feed` -/
  rand_lt_switch_prob : Bool
  /-- `FeedReader.read url etag last_modified use_proxy` -/
  read : Str → Option Str → Option Str → Bool → FeedResponse
  /-- `AsyncFeedReader.read url use_proxy`; `none` models a falsy response -/
  async_read : Str → Bool → Option StoryResponse
  /-- `FeedResponseStatus.is_need_proxy` -/
  is_need_proxy : Int → Bool
  /-- `FeedFinder.find` together with its message handler output -/
  finder_find : Str → Bool → FinderOutcome
  /-- `RawFeedParser().parse`; `error` models a raised `FeedParserError` -/
  raw_parse : FeedResponse → Except Str RawFeedResult
  /-- `FeedParser(checksum).parse`; `error` models a raised `FeedParserError` -/
  feed_parse : Option Str → RawFeedResult → Except Str ParseResult
  /-- `UrlsafeBase64.decode` (empty result is falsy) -/
  b64decode : Option Str → Str
  /-- `UrlsafeBase64.encode` -/
  b64encode : Str → Str
  /-- `FeedChecksum.load` -/
  checksum_load : Str → Str
  /-- `checksum.dump(limit)` -/
  checksum_dump : Str → Nat → Str
  /-- `rssant.helper.content_hash.compute_hash_base64` -/
  compute_hash_base64 : Str → Str
  /-- `rssant_common.rss.get_story_of_feed_entry data now` -/
  get_story_of_feed_entry : Str → Int → NStory
  /-- `django.utils.timezone.now()` -/
  now : Int
  /-- `rssant_common.rss.validate_feed`; `error` models a raised `Invalid` -/
  vfeed : Feed → Except Str Feed
  /-- `rssant_common.rss.validate_story`; `error` models a raised `Invalid` -/
  vstory : NStory → Except Str NStory
  /-- `bytes.decode` with lossy fallback on `UnicodeError` (never fails) -/
  byte_decode : Str → Str → Str
  /-- `rssant_feedlib.processor.get_html_redirect_url` -/
  get_html_redirect_url : Str → Option Str
  /-- `rssant_feedlib.processor.story_html_clean` -/
  story_html_clean : Str → Str
  /-- `rssant_feedlib.processor.story_html_to_text` -/
  story_html_to_text : Str → Str
  /-- `rssant_feedlib.processor.story_readability` -/
  story_readability : Str → Str
  /-- `rssant_feedlib.processor.process_story_links content url` -/
  process_story_links : Str → Str → Str
  /-- `StoryContentInfo(content).text` -/
  content_info_text : Str → Str
  /-- `rssant_feedlib.fulltext.is_fulltext_content` on the content info -/
  is_fulltext_content : Str → Bool
  /-- `rssant_feedlib.fulltext.split_sentences` -/
  split_sentences : Str → List Str
  /-- the `accept` field returned by the `harbor_rss.update_story` sink call -/
  update_story_accept : StoryResult → Option Str

/-! ## Size ceilings (module constants of `worker_service.py`) -/

def _MAX_STORY_HTML_LENGTH : Nat := 5 * 1000 * 1024

def _MAX_STORY_CONTENT_LENGTH : Nat := 1000 * 1024

def _MAX_STORY_SUMMARY_LENGTH : Nat := 300

/-- Modelled from the spec: `rssant_api.helper.shorten` is code of this
repository that is not under `src/`; the spec describes its outputs as
"capped" at the given width and calls the ceilings "hard truncation
points", so it is modelled as truncation to at most `width` characters. -/
def shorten (text : Str) (width : Nat) : Str := text.take width

/-! ## `validate_feed` (worker_service.py lines 72-89) -/

/-- `validate_feed(feed)`: annotate and re-raise a feed-level validation
failure; drop (and log) each story whose schema validation fails, keeping
the valid ones in order. -/
def validate_feed (env : Env) (feed : Feed) : Except Str Feed :=
  let feed_info := orStr feed.url (orStr feed.link feed.title)
  match env.vfeed feed with
  | Except.error ex => Except.error (ex ++ lit ", feed=" ++ infoStr feed_info)
  | Except.ok feed_data =>
      Except.ok { feed_data with
        storys := feed_data.storys.filterMap fun s => (env.vstory s).toOption }

/-! ## `_get_storys` (worker_service.py lines 445-453) -/

/-- One insertion step of the stable descending sort by `dt_published`
(`sorted(storys, key=..., reverse=True)` in the source keeps earlier
elements first among equal keys; so does this insertion). -/
def insertDesc (x : NStory) : List NStory → List NStory
  | [] => [x]
  | y :: ys =>
      if x.dt_published < y.dt_published then y :: insertDesc x ys
      else x :: y :: ys

/-- Stable sort by `dt_published` descending. -/
def sortByDtDesc : List NStory → List NStory
  | [] => []
  | x :: xs => insertDesc x (sortByDtDesc xs)

/-- `_get_storys(entries)`: normalize each raw entry at a common `now`,
then sort by publish time, newest first. -/
def _get_storys (env : Env) (entries : List Str) : List NStory :=
  sortByDtDesc (entries.map fun data => env.get_story_of_feed_entry data env.now)

/-- Non-increasing order on publish timestamps. -/
def dtGE (a b : NStory) : Prop := b.dt_published ≤ a.dt_published

/-! ## `_parse_found` (worker_service.py lines 397-442) -/

/-- `_parse_found(found, checksum_data_base64, is_refresh)`: build the
feed attribute record from the response and the checksum-diffed parse
result, then run it through `validate_feed`.  An `error` models a raised
`Invalid` or `FeedParserError`. -/
def _parse_found (env : Env) (response : FeedResponse)
    (raw_result : RawFeedResult) (checksum_data_base64 : Option Str)
    (is_refresh : Bool) : Except Str Feed :=
  let checksum_data := env.b64decode checksum_data_base64
  let checksum : Option Str :=
    if checksum_data ≠ [] ∧ ¬is_refresh then some (env.checksum_load checksum_data)
    else none
  match env.feed_parse checksum raw_result with
  | Except.error ex => Except.error ex
  | Except.ok result =>
      let new_checksum_data := env.checksum_dump result.checksum 300
      let warnings : Option Str :=
        if raw_result.warnings = [] then none
        else some (joinSemi raw_result.warnings)
      let feed : Feed :=
        { use_proxy := response.use_proxy
          url := some response.url
          content_length := response.content.length
          content_hash_base64 := env.compute_hash_base64 response.content
          etag := response.etag
          last_modified := response.last_modified
          encoding := response.encoding
          response_status := response.status
          title := result.feed.title
          link := result.feed.home_url
          author := result.feed.author_name
          icon := result.feed.icon_url
          description := result.feed.description
          dt_updated := result.feed.dt_updated
          version := result.feed.version
          storys := _get_storys env result.storys
          checksum_data_base64 := env.b64encode new_checksum_data
          warnings := warnings }
      validate_feed env feed

/-! ## `sync_feed` (worker_service.py lines 133-215) -/

/-- One observable step of a `sync_feed` run: a transport fetch, the raw
parse, or a Result Sink call. -/
inductive SyncEvent
  | fetch (url : Str) (etag : Option Str) (last_modified : Option Str)
      (use_proxy : Bool)
  | rawParse
  | sink (c : SinkCall)
deriving DecidableEq, Repr

/-- Arguments of `sync_feed`. -/
structure SyncArgs where
  feed_id : Int
  url : Str
  use_proxy : Bool
  checksum_data_base64 : Option Str
  content_hash_base64 : Option Str
  etag : Option Str
  last_modified : Option Str
  is_refresh : Bool
deriving Repr

/-- The `etag` conditional-fetch token actually passed to the reader
(`params = {}` on a forced refresh). -/
def sync_etag (a : SyncArgs) : Option Str :=
  if a.is_refresh then none else a.etag

/-- The `last_modified` token actually passed to the reader. -/
def sync_lm (a : SyncArgs) : Option Str :=
  if a.is_refresh then none else a.last_modified

/-- The proxy decision of `sync_feed` (lines 149-157): start from the
caller-supplied flag, force off for a DNS-resolved URL, require an
available proxy, drop with probability `switch_prob`, force on for a
proxy-tagged URL — in that order. -/
def decide_use_proxy (env : Env) (url : Str) (use_proxy : Bool) : Bool :=
  let u1 := if env.is_resolved_url url then false else use_proxy
  let u2 := env.has_proxy && u1
  let u3 := if u2 && env.rand_lt_switch_prob then false else u2
  if env.is_use_proxy_url url then true else u3

/-- Whether `sync_feed` performs the one proxied retry (line 161). -/
def sync_retry (env : Env) (a : SyncArgs) : Bool :=
  let up := decide_use_proxy env a.url a.use_proxy
  let r0 := env.read a.url (sync_etag a) (sync_lm a) up
  (!up) && env.has_proxy && env.is_need_proxy r0.status

/-- The response `sync_feed` goes on to process: the first read, replaced
by the proxied retry only when that retry succeeds (lines 158-168). -/
def sync_response (env : Env) (a : SyncArgs) : FeedResponse :=
  let up := decide_use_proxy env a.url a.use_proxy
  let r0 := env.read a.url (sync_etag a) (sync_lm a) up
  if sync_retry env a then
    let pr := env.read a.url (sync_etag a) (sync_lm a) true
    if pr.ok then pr else r0
  else r0

/-- The fetch steps of a `sync_feed` run: the primary read, followed by
the proxied retry when the retry condition holds. -/
def sync_fetch_events (env : Env) (a : SyncArgs) : List SyncEvent :=
  let up := decide_use_proxy env a.url a.use_proxy
  if sync_retry env a then
    [SyncEvent.fetch a.url (sync_etag a) (sync_lm a) up,
     SyncEvent.fetch a.url (sync_etag a) (sync_lm a) true]
  else [SyncEvent.fetch a.url (sync_etag a) (sync_lm a) up]

/-- The steps of a `sync_feed` run after the fetch phase (lines 169-215):
the not-modified/error path, the content-hash dedup path, or the
parse-and-report path. -/
def sync_tail (env : Env) (a : SyncArgs) : List SyncEvent :=
  let response := sync_response env a
  if response.ok = false ∨ response.content = [] then
    let status :=
      if response.status = 304 then FeedStatus.READY else FeedStatus.ERROR
    [SyncEvent.sink
      (SinkCall.update_feed_info a.feed_id (some status) response.status none)]
  else
    let new_hash := env.compute_hash_base64 response.content
    if a.is_refresh = false ∧ some new_hash = a.content_hash_base64 then
      [SyncEvent.sink
        (SinkCall.update_feed_info a.feed_id none response.status none)]
    else
      match env.raw_parse response with
      | Except.error ex =>
          [SyncEvent.rawParse,
           SyncEvent.sink
             (SinkCall.update_feed_info a.feed_id (some FeedStatus.ERROR)
               response.status (some ex))]
      | Except.ok raw_result =>
          match _parse_found env response raw_result a.checksum_data_base64
              a.is_refresh with
          | Except.error ex =>
              [SyncEvent.rawParse,
               SyncEvent.sink
                 (SinkCall.update_feed_info a.feed_id (some FeedStatus.ERROR)
                   response.status (some ex))]
          | Except.ok feed =>
              [SyncEvent.rawParse,
               SyncEvent.sink
                 (SinkCall.update_feed a.feed_id feed a.is_refresh)]

/-- `sync_feed(...)` as the sequence of its observable steps. -/
def sync_feed (env : Env) (a : SyncArgs) : List SyncEvent :=
  sync_fetch_events env a ++ sync_tail env a

/-- Project a sync step to its Result Sink call, when it is one. -/
def sinkOfSyncEvent : SyncEvent → Option SinkCall
  | SyncEvent.sink c => some c
  | _ => none

/-- The Result Sink calls made during a `sync_feed` run, in order. -/
def sync_sink_calls (env : Env) (a : SyncArgs) : List SinkCall :=
  (sync_feed env a).filterMap sinkOfSyncEvent

/-! ## `find_feed` (worker_service.py lines 93-131) -/

/-- One observable step of a `find_feed` run: a Result Sink call or the
network discovery I/O. -/
inductive FindEvent
  | sink (c : SinkCall)
  | net (url : Str) (use_proxy : Bool)
deriving DecidableEq, Repr

/-- `find_feed(feed_creation_id, url)` as its sequence of observable
steps: the immediate progress call, the discovery I/O, and the terminal
result call (parse failures caught and reported as `feed=None` with an
extra message). -/
def find_feed (env : Env) (feed_creation_id : Int) (url : Str) :
    List FindEvent :=
  let ev0 :=
    [FindEvent.sink
      (SinkCall.update_feed_creation_status feed_creation_id FeedStatus.UPDATING)]
  let up := env.is_use_proxy_url url
  let outcome := env.finder_find url up
  let evs := ev0 ++ [FindEvent.net url up]
  match outcome.found with
  | none =>
      evs ++
        [FindEvent.sink
          (SinkCall.save_feed_creation_result feed_creation_id outcome.messages none)]
  | some (response, raw_result) =>
      match _parse_found env response raw_result none false with
      | Except.ok feed =>
          evs ++
            [FindEvent.sink
              (SinkCall.save_feed_creation_result feed_creation_id
                outcome.messages (some feed))]
      | Except.error ex =>
          evs ++
            [FindEvent.sink
              (SinkCall.save_feed_creation_result feed_creation_id
                (outcome.messages ++ [lit "invalid feed: " ++ ex]) none)]

/-- Project a discovery step to its Result Sink call, when it is one. -/
def sinkOfFindEvent : FindEvent → Option SinkCall
  | FindEvent.sink c => some c
  | _ => none

/-- The Result Sink calls made during a `find_feed` run, in order. -/
def find_sink_calls (env : Env) (feed_creation_id : Int) (url : Str) :
    List SinkCall :=
  (find_feed env feed_creation_id url).filterMap sinkOfFindEvent

/-! ## `_fetch_story` (worker_service.py lines 217-245) -/

/-- Result of the bounded story-fetch loop, together with the list of
URLs actually read from the transport (for counting reads). -/
structure FetchOut where
  url : Str
  content : Option Str
  response : Option StoryResponse
  reads : List Str
deriving DecidableEq, Repr

/-- The body of `for i in range(2)` in `_fetch_story`, with the number of
remaining iterations as explicit fuel.  `lastContent`/`lastResponse`
carry the values of the previous iteration so that falling off the loop
returns them, exactly as the Python loop does. -/
def _fetch_story_aux (env : Env) (use_proxy : Bool) :
    Nat → Str → List Str → Option Str → Option StoryResponse → FetchOut
  | 0, url, reads, lastContent, lastResponse =>
      ⟨url, lastContent, lastResponse, reads⟩
  | Nat.succ n, url0, reads, _, _ =>
      let reads1 := reads ++ [url0]
      match env.async_read url0 use_proxy with
      | none => ⟨url0, none, none, reads1⟩
      | some r =>
          let url1 :=
            match r.url with
            | some u => if u = [] then url0 else u
            | none => url0
          if r.ok = false ∨ r.content = [] then ⟨url1, none, some r, reads1⟩
          else
            let content := env.byte_decode r.content r.encoding
            match env.get_html_redirect_url content with
            | none => ⟨url1, some content, some r, reads1⟩
            | some hr =>
                if hr = [] ∨ hr = url1 then ⟨url1, some content, some r, reads1⟩
                else _fetch_story_aux env use_proxy n hr reads1 (some content) (some r)

/-- `_fetch_story(reader, feed_id, offset, url, use_proxy)`: the bounded
client-side-redirect loop (`for i in range(2)`). -/
def _fetch_story (env : Env) (use_proxy : Bool) (url : Str) : FetchOut :=
  _fetch_story_aux env use_proxy 2 url [] none none

/-- The decoded content the loop derives from one transport response
(`None` when the response is falsy, failed or empty). -/
def contentOf (env : Env) : Option StoryResponse → Option Str
  | none => none
  | some r =>
      if r.ok = false ∨ r.content = [] then none
      else some (env.byte_decode r.content r.encoding)

/-! ## `fetch_story` / `_process_story_webpage`
(worker_service.py lines 268-360) -/

/-- The cleaned, readability-extracted, link-rewritten content of
`_process_story_webpage` (lines 325-330): strip, `story_html_clean`,
`story_readability`, then `process_story_links` with the story URL. -/
def extracted_content (env : Env) (url text : Str) : Str :=
  env.process_story_links
    (env.story_readability (env.story_html_clean (pyStrip text))) url

/-- `text_content` of `_process_story_webpage` (line 332): the content
info's plain text shortened to the content ceiling. -/
def extracted_text_content (env : Env) (url text : Str) : Str :=
  shorten (env.content_info_text (extracted_content env url text))
    _MAX_STORY_CONTENT_LENGTH

/-- `num_sentences` of `_process_story_webpage` (line 333). -/
def extracted_num_sentences (env : Env) (url text : Str) : Nat :=
  (env.split_sentences (extracted_text_content env url text)).length

/-- `_process_story_webpage(feed_id, offset, url, text,
num_sub_sentences)`: the extraction pipeline with the oversize fallback
and the full-text acceptance heuristic. -/
def _process_story_webpage (env : Env) (feed_id : Int) (offset : Nat)
    (url : Str) (text : Str) (num_sub_sentences : Option Nat) : StoryResult :=
  let dflt : StoryResult := ⟨feed_id, offset, url, none, none, none, none, none, none⟩
  if pyStrip text = [] then dflt
  else
    let content := extracted_content env url text
    let text_content := extracted_text_content env url text
    let num_sentences := extracted_num_sentences env url text
    let content1 :=
      if _MAX_STORY_CONTENT_LENGTH < content.length then text_content else content
    let rejected : Bool :=
      match num_sub_sentences with
      | some nss =>
          (!env.is_fulltext_content content) && decide (num_sentences ≤ nss)
      | none => false
    if rejected then dflt
    else
      let summary := shorten text_content _MAX_STORY_SUMMARY_LENGTH
      if summary = [] then dflt
      else
        let result : StoryResult :=
          { dflt with
            content := some content1
            summary := some summary
            sentence_count := some num_sentences }
        { result with accept := env.update_story_accept result }

/-- The oversized-HTML reduction in `fetch_story` (lines 294-299): at or
over the story-HTML ceiling, clean the HTML; if still at or over, fall
back to plain text truncated to the ceiling. -/
def reduce_story_html (env : Env) (content : Str) : Str :=
  if _MAX_STORY_HTML_LENGTH ≤ content.length then
    let c := env.story_html_clean content
    if _MAX_STORY_HTML_LENGTH ≤ c.length then
      (env.story_html_to_text c).take _MAX_STORY_HTML_LENGTH
    else c
  else content

/-- `fetch_story(feed_id, offset, url, use_proxy, num_sub_sentences)`.
The inner async impl forces proxy off for a resolved URL, requires an
available proxy, runs the redirect loop, and hands back
`(url, content, response)`; `fetch_story` then builds its result from the
content and the response, reporting the caller-supplied URL.  `none`
models the `AttributeError` Python would raise on a falsy response
(`response.status` at line 288). -/
def fetch_story (env : Env) (feed_id : Int) (offset : Nat) (url : Str)
    (use_proxy : Bool) (num_sub_sentences : Option Nat) : Option StoryResult :=
  let up0 := if env.is_resolved_url url then false else use_proxy
  let up := up0 && env.async_has_proxy
  let out := _fetch_story env up url
  match out.response with
  | none => none
  | some response =>
      let dflt : StoryResult :=
        ⟨feed_id, offset, url, some response.status, some response.use_proxy,
          none, none, none, none⟩
      match out.content with
      | none => some dflt
      | some content =>
          if content = [] then some dflt
          else
            let content1 := reduce_story_html env content
            let r := _process_story_webpage env feed_id offset url content1
              num_sub_sentences
            some { r with
              feed_id := feed_id
              offset := offset
              url := url
              response_status := some response.status
              use_proxy := some response.use_proxy }

/-! ## Concrete environments and inputs for witness evaluations -/

/-- A failing feed response (HTTP 500, no body). -/
def respFail : FeedResponse :=
  ⟨500, false, [], lit "http://u", none, none, lit "utf-8", false⟩

/-- A successful feed response with body `"x"`. -/
def respOk : FeedResponse :=
  ⟨200, true, lit "x", lit "http://u", none, none, lit "utf-8", false⟩

/-- An empty raw parse result. -/
def rawF : RawFeedResult := ⟨[], []⟩

/-- A concrete base environment: every collaborator is a simple
computable stub (identity-like extraction, failing transport). -/
def env0 : Env :=
  { is_resolved_url := fun _ => false
    is_use_proxy_url := fun _ => false
    has_proxy := false
    async_has_proxy := false
    rand_lt_switch_prob := false
    read := fun _ _ _ _ => respFail
    async_read := fun _ _ => none
    is_need_proxy := fun _ => false
    finder_find := fun _ _ => ⟨none, []⟩
    raw_parse := fun _ => Except.error (lit "parse failed")
    feed_parse := fun _ _ => Except.error (lit "parse failed")
    b64decode := fun _ => []
    b64encode := fun s => s
    checksum_load := fun s => s
    checksum_dump := fun s _ => s
    compute_hash_base64 := fun s => s
    get_story_of_feed_entry := fun d _ => ⟨0, d⟩
    now := 0
    vfeed := fun f => Except.ok f
    vstory := fun s => Except.ok s
    byte_decode := fun c _ => c
    get_html_redirect_url := fun _ => none
    story_html_clean := fun s => s
    story_html_to_text := fun s => s
    story_readability := fun s => s
    process_story_links := fun c _ => c
    content_info_text := fun c => c
    is_fulltext_content := fun _ => false
    split_sentences := fun s => if s = [] then [] else [s]
    update_story_accept := fun _ => none }

/-- Environment whose URLs are all DNS-resolved and not proxy-tagged. -/
def env1 : Env := { env0 with is_resolved_url := fun _ => true }

/-- Environment whose URLs are all DNS-resolved and proxy-tagged. -/
def env1t : Env :=
  { env0 with
    is_resolved_url := fun _ => true
    is_use_proxy_url := fun _ => true }

/-- Environment whose feed reads succeed with body `"x"`. -/
def env3 : Env := { env0 with read := fun _ _ _ _ => respOk }

/-- Environment whose story-schema validation rejects exactly the
stories with `dt_published = 0`. -/
def envV : Env :=
  { env0 with
    vstory := fun s =>
      if s.dt_published = 0 then Except.error (lit "invalid story")
      else Except.ok s }

/-- Environment whose feed discovery finds a feed whose checksum-diff
parse then fails. -/
def envF : Env :=
  { env0 with
    finder_find := fun _ _ => ⟨some (respOk, rawF), [lit "m1"]⟩
    feed_parse := fun _ _ => Except.error (lit "boom") }

/-- Environment whose story reads succeed with body `"c"` while the
transport reports the different final URL `"http://v"`. -/
def envB : Env :=
  { env0 with
    async_read := fun _ _ =>
      some ⟨some (lit "http://v"), true, lit "c", lit "utf-8", 200, false⟩ }

/-- Sync arguments: caller asks for proxy, no prior state. -/
def a1 : SyncArgs := ⟨1, lit "http://u", true, none, none, none, none, false⟩

/-- Sync arguments: no proxy, no prior state. -/
def a2 : SyncArgs := ⟨1, lit "http://u", false, none, none, none, none, false⟩

/-- Sync arguments whose stored content hash matches the body `"x"`
under the identity hash of `env3`. -/
def a3 : SyncArgs :=
  ⟨1, lit "http://u", false, none, some (lit "x"), none, none, false⟩

/-- A feed with three stories whose middle story (`dt_published = 0`)
fails validation under `envV`. -/
def feedV : Feed :=
  ⟨false, some (lit "http://f"), 0, [], none, none, lit "utf-8", 200,
    none, none, none, none, none, [], [],
    [⟨1, lit "a"⟩, ⟨0, lit "b"⟩, ⟨2, lit "c"⟩], [], none⟩

/-- The story-enrichment result `fetch_story` produces under `envB`. -/
def c10res : StoryResult :=
  ⟨1, 0, lit "http://u", some 200, some false, some (lit "c"),
    some (lit "c"), some 1, none⟩

/-! ## Sortedness of the story ordering -/

theorem mem_insertDesc {b x : NStory} {l : List NStory}
    (h : b ∈ insertDesc x l) : b = x ∨ b ∈ l := by
  induction l with
  | nil => simpa [insertDesc] using h
  | cons y ys ih =>
      rw [insertDesc] at h
      by_cases hxy : x.dt_published < y.dt_published
      · rw [if_pos hxy, List.mem_cons] at h
        rcases h with hy | hrec
        · exact Or.inr (List.mem_cons.mpr (Or.inl hy))
        · rcases ih hrec with hx | hys
          · exact Or.inl hx
          · exact Or.inr (List.mem_cons.mpr (Or.inr hys))
      · rw [if_neg hxy, List.mem_cons] at h
        rcases h with hx | hyl
        · exact Or.inl hx
        · exact Or.inr hyl

theorem insertDesc_sorted {x : NStory} {l : List NStory}
    (h : List.Sorted dtGE l) : List.Sorted dtGE (insertDesc x l) := by
  induction l with
  | nil => simp [insertDesc, List.Sorted]
  | cons y ys ih =>
      rw [List.sorted_cons] at h
      by_cases hxy : x.dt_published < y.dt_published
      · rw [insertDesc, if_pos hxy, List.sorted_cons]
        refine ⟨?_, ih h.2⟩
        intro b hb
        rcases mem_insertDesc hb with hbx | hbl
        · exact hbx ▸ le_of_lt hxy
        · exact h.1 b hbl
      · rw [insertDesc, if_neg hxy, List.sorted_cons]
        refine ⟨?_, by rw [List.sorted_cons]; exact h⟩
        intro b hb
        rcases List.mem_cons.mp hb with hby | hbl
        · exact hby ▸ le_of_not_lt hxy
        · exact le_trans (h.1 b hbl) (le_of_not_lt hxy)

theorem sortByDtDesc_sorted (l : List NStory) :
    List.Sorted dtGE (sortByDtDesc l) := by
  induction l with
  | nil => simp [sortByDtDesc, List.Sorted]
  | cons x xs ih => exact insertDesc_sorted ih

theorem insertDesc_perm (x : NStory) (l : List NStory) :
    List.Perm (insertDesc x l) (x :: l) := by
  induction l with
  | nil => simp [insertDesc]
  | cons y ys ih =>
      rw [insertDesc]
      by_cases hxy : x.dt_published < y.dt_published
      · rw [if_pos hxy]
        exact List.Perm.trans (List.Perm.cons y ih) (List.Perm.swap x y ys)
      · rw [if_neg hxy]

theorem sortByDtDesc_perm (l : List NStory) :
    List.Perm (sortByDtDesc l) l := by
  induction l with
  | nil => simp [sortByDtDesc]
  | cons x xs ih =>
      exact List.Perm.trans (insertDesc_perm x (sortByDtDesc xs))
        (List.Perm.cons x ih)

/-! ## Helper lemmas about the sync fetch phase -/

theorem sync_fetch_events_head (env : Env) (a : SyncArgs) :
    (sync_fetch_events env a).head? =
      some (SyncEvent.fetch a.url (sync_etag a) (sync_lm a)
        (decide_use_proxy env a.url a.use_proxy)) := by
  unfold sync_fetch_events
  by_cases h : sync_retry env a <;> simp [h]

theorem sync_fetch_events_sink_free (env : Env) (a : SyncArgs) :
    (sync_fetch_events env a).filterMap sinkOfSyncEvent = [] := by
  unfold sync_fetch_events
  by_cases h : sync_retry env a <;> simp [h, sinkOfSyncEvent]

theorem rawParse_not_mem_sync_fetch_events (env : Env) (a : SyncArgs) :
    SyncEvent.rawParse ∉ sync_fetch_events env a := by
  unfold sync_fetch_events
  by_cases h : sync_retry env a <;> simp [h]

theorem sync_feed_head (env : Env) (a : SyncArgs) :
    (sync_feed env a).head? =
      some (SyncEvent.fetch a.url (sync_etag a) (sync_lm a)
        (decide_use_proxy env a.url a.use_proxy)) := by
  rw [sync_feed]
  rw [← sync_fetch_events_head env a]
  unfold sync_fetch_events
  by_cases h : sync_retry env a <;> simp [h]

/-- Claim C1: in `sync_feed` the proxy decision starts from the caller's
`use_proxy`, is forced off for a DNS-resolved URL, may be dropped by the
random switch, and is forced on for a proxy-tagged URL, in that order;
hence a resolved, non-tagged URL is fetched with `use_proxy = false`
regardless of the input flag and the random outcome, and a proxy-tagged
URL is fetched with `use_proxy = true`; the first fetch of the run uses
exactly this decision. -/
theorem sync_proxy_precedence (env : Env) (a : SyncArgs) :
    (env.is_resolved_url a.url = true → env.is_use_proxy_url a.url = false →
      decide_use_proxy env a.url a.use_proxy = false) ∧
    (env.is_use_proxy_url a.url = true →
      decide_use_proxy env a.url a.use_proxy = true) ∧
    (sync_feed env a).head? =
      some (SyncEvent.fetch a.url (sync_etag a) (sync_lm a)
        (decide_use_proxy env a.url a.use_proxy)) := by
  refine ⟨?_, ?_, sync_feed_head env a⟩
  · intro h1 h2
    simp [decide_use_proxy, h1, h2]
  · intro h
    simp [decide_use_proxy, h]

/-- Claim C2: when the (post-retry) fetch result of `sync_feed` failed or
has no content, the run is terminal: no raw parse happens and the only
Result Sink call is one `update_feed_info` whose status is `READY`
exactly when the response status is 304 and `ERROR` otherwise, always
carrying the response status. -/
theorem sync_feed_failed_fetch_terminal (env : Env) (a : SyncArgs)
    (h : (sync_response env a).ok = false ∨ (sync_response env a).content = []) :
    sync_sink_calls env a =
      [SinkCall.update_feed_info a.feed_id
        (some (if (sync_response env a).status = 304 then FeedStatus.READY
          else FeedStatus.ERROR))
        (sync_response env a).status none] ∧
    SyncEvent.rawParse ∉ sync_feed env a := by
  have htail : sync_tail env a =
      [SyncEvent.sink
        (SinkCall.update_feed_info a.feed_id
          (some (if (sync_response env a).status = 304 then FeedStatus.READY
            else FeedStatus.ERROR))
          (sync_response env a).status none)] := by
    unfold sync_tail
    rw [if_pos h]
  constructor
  · rw [sync_sink_calls, sync_feed, List.filterMap_append,
      sync_fetch_events_sink_free, htail]
    simp [sinkOfSyncEvent]
  · rw [sync_feed]
    intro hm
    rcases List.mem_append.mp hm with h1 | h2
    · exact rawParse_not_mem_sync_fetch_events env a h1
    · rw [htail] at h2
      simp at h2

/-- Claim C3: a successful non-refresh fetch whose content hash equals
the caller-supplied prior hash is treated as unchanged: no raw parse
happens and the only Result Sink call is a status-less `update_feed_info`
metadata update (in particular no `update_feed` call, so zero stories are
emitted). -/
theorem sync_feed_unchanged_hash_metadata_only (env : Env) (a : SyncArgs)
    (h1 : a.is_refresh = false)
    (h2 : (sync_response env a).ok = true)
    (h3 : (sync_response env a).content ≠ [])
    (h4 : a.content_hash_base64 =
      some (env.compute_hash_base64 (sync_response env a).content)) :
    sync_sink_calls env a =
      [SinkCall.update_feed_info a.feed_id none (sync_response env a).status none] ∧
    SyncEvent.rawParse ∉ sync_feed env a := by
  have hcond : ¬((sync_response env a).ok = false ∨
      (sync_response env a).content = []) := by
    rw [h2]
    simp [h3]
  have htail : sync_tail env a =
      [SyncEvent.sink
        (SinkCall.update_feed_info a.feed_id none (sync_response env a).status
          none)] := by
    unfold sync_tail
    rw [if_neg hcond, if_pos ⟨h1, h4.symm⟩]
  constructor
  · rw [sync_sink_calls, sync_feed, List.filterMap_append,
      sync_fetch_events_sink_free, htail]
    simp [sinkOfSyncEvent]
  · rw [sync_feed]
    intro hm
    rcases List.mem_append.mp hm with ha | hb
    · exact rawParse_not_mem_sync_fetch_events env a ha
    · rw [htail] at hb
      simp at hb

/-- Claim C4: in `validate_feed`, a feed-level validation failure is
re-raised annotated with the feed's url/link/title, while story-level
failures are isolated per story: each failing story is dropped and the
remaining valid stories are kept in their original order (as the
`filterMap` over the story list), with the feed result still returned. -/
theorem validate_feed_story_isolation (env : Env) (feed : Feed) :
    (∀ fd, env.vfeed feed = Except.ok fd →
      validate_feed env feed =
        Except.ok { fd with
          storys := fd.storys.filterMap fun s => (env.vstory s).toOption }) ∧
    (∀ ex, env.vfeed feed = Except.error ex →
      validate_feed env feed =
        Except.error (ex ++ lit ", feed=" ++
          infoStr (orStr feed.url (orStr feed.link feed.title)))) := by
  constructor
  · intro fd h
    simp [validate_feed, h]
  · intro ex h
    simp [validate_feed, h]

/-- Claim C5: the normalized story sequence built by `_get_storys` is
sorted by `dt_published` in non-increasing order, whatever the order of
the incoming raw entries, and it is a permutation of the normalized
entries (none gained or lost by sorting). -/
theorem get_storys_sorted_desc (env : Env) (entries : List Str) :
    List.Sorted (fun a b => b.dt_published ≤ a.dt_published)
      (_get_storys env entries) ∧
    List.Perm (_get_storys env entries)
      (entries.map fun data => env.get_story_of_feed_entry data env.now) :=
  ⟨sortByDtDesc_sorted _, sortByDtDesc_perm _⟩

/-- Claim C9: every `find_feed` run makes exactly two Result Sink calls —
an `update_feed_creation_status` progress call with status `UPDATING`
first, placed before the discovery network I/O, then exactly one
`save_feed_creation_result` terminal call — and a parse or validation
failure on a found feed is caught and reported as `feed = none` with an
extra `invalid feed:` message rather than propagated. -/
theorem find_feed_sink_discipline (env : Env) (feed_creation_id : Int)
    (url : Str) :
    (∃ msgs feedo, find_sink_calls env feed_creation_id url =
      [SinkCall.update_feed_creation_status feed_creation_id FeedStatus.UPDATING,
       SinkCall.save_feed_creation_result feed_creation_id msgs feedo]) ∧
    (find_feed env feed_creation_id url).take 2 =
      [FindEvent.sink
        (SinkCall.update_feed_creation_status feed_creation_id FeedStatus.UPDATING),
       FindEvent.net url (env.is_use_proxy_url url)] ∧
    (∀ response raw_result ex,
      (env.finder_find url (env.is_use_proxy_url url)).found =
        some (response, raw_result) →
      _parse_found env response raw_result none false = Except.error ex →
      find_sink_calls env feed_creation_id url =
        [SinkCall.update_feed_creation_status feed_creation_id FeedStatus.UPDATING,
         SinkCall.save_feed_creation_result feed_creation_id
           ((env.finder_find url (env.is_use_proxy_url url)).messages ++
             [lit "invalid feed: " ++ ex]) none]) := by
  refine ⟨?_, ?_, ?_⟩
  · rcases hf : (env.finder_find url (env.is_use_proxy_url url)).found with
      _ | ⟨response, raw_result⟩
    · exact ⟨(env.finder_find url (env.is_use_proxy_url url)).messages, none,
        by simp [find_sink_calls, find_feed, hf, sinkOfFindEvent]⟩
    · rcases hp : _parse_found env response raw_result none false with ex | feed
      · exact ⟨(env.finder_find url (env.is_use_proxy_url url)).messages ++
            [lit "invalid feed: " ++ ex], none,
          by simp [find_sink_calls, find_feed, hf, hp, sinkOfFindEvent]⟩
      · exact ⟨(env.finder_find url (env.is_use_proxy_url url)).messages,
          some feed,
          by simp [find_sink_calls, find_feed, hf, hp, sinkOfFindEvent]⟩
  · rcases hf : (env.finder_find url (env.is_use_proxy_url url)).found with
      _ | ⟨response, raw_result⟩
    · simp [find_feed, hf]
    · rcases hp : _parse_found env response raw_result none false with ex | feed <;>
        simp [find_feed, hf, hp]
  · intro response raw_result ex hf hp
    simp [find_sink_calls, find_feed, hf, hp, sinkOfFindEvent]

/-! ## Helper lemmas about the story-fetch loop -/

theorem _fetch_story_aux_spec (env : Env) (up : Bool) :
    ∀ (fuel : Nat) (url : Str) (reads : List Str) (lastC : Option Str)
      (lastR : Option StoryResponse),
      (fuel = 0 → ∃ u, reads.getLast? = some u ∧ lastR = env.async_read u up ∧
        lastC = contentOf env lastR) →
      (_fetch_story_aux env up fuel url reads lastC lastR).reads.length ≤
        reads.length + fuel ∧
      (∃ u, (_fetch_story_aux env up fuel url reads lastC lastR).reads.getLast? =
          some u ∧
        (_fetch_story_aux env up fuel url reads lastC lastR).response =
          env.async_read u up) ∧
      (_fetch_story_aux env up fuel url reads lastC lastR).content =
        contentOf env (_fetch_story_aux env up fuel url reads lastC lastR).response := by
  intro fuel
  induction fuel with
  | zero =>
      intro url reads lastC lastR hlast
      rcases hlast rfl with ⟨u, hu, hr, hc⟩
      rw [_fetch_story_aux]
      exact ⟨Nat.le_add_right _ _, ⟨u, hu, hr⟩, by rw [hc, hr]⟩
  | succ n ih =>
      intro url reads lastC lastR _
      rw [_fetch_story_aux]
      rcases hread : env.async_read url up with _ | r
      · refine ⟨by simp, ⟨url, by simp, by simp [hread]⟩, rfl⟩
      · dsimp only
        by_cases hok : r.ok = false ∨ r.content = []
        · rw [if_pos hok]
          refine ⟨by simp, ⟨url, by simp, by simp [hread]⟩, ?_⟩
          simp [contentOf, hok]
        · rw [if_neg hok]
          rcases hredir : env.get_html_redirect_url
              (env.byte_decode r.content r.encoding) with _ | hr
          · refine ⟨by simp, ⟨url, by simp, by simp [hread]⟩, ?_⟩
            simp [contentOf, hok]
          · dsimp only
            by_cases hsame : hr = [] ∨
                hr = (match r.url with
                  | some u => if u = [] then url else u
                  | none => url)
            · rw [if_pos hsame]
              refine ⟨by simp, ⟨url, by simp, by simp [hread]⟩, ?_⟩
              simp [contentOf, hok]
            · rw [if_neg hsame]
              have hnext := ih hr (reads ++ [url]) (some (env.byte_decode r.content r.encoding))
                (some r) ?_
              · refine ⟨?_, hnext.2.1, hnext.2.2⟩
                calc (_fetch_story_aux env up n hr (reads ++ [url])
                      (some (env.byte_decode r.content r.encoding)) (some r)).reads.length
                    ≤ (reads ++ [url]).length + n := hnext.1
                  _ = reads.length + (n + 1) := by simp; omega
              · intro _
                exact ⟨url, by simp, hread.symm, by simp [contentOf, hok]⟩

/-- Claim C7: the story redirect loop is bounded — for every URL and
environment (including pages that always yield a further client-side
redirect hint) the transport read happens at most 3 times (the model
performs at most 2), the loop terminates (the model is a total function
on explicit fuel mirroring `for i in range(2)`), and the result carries
the content decoded from the last response together with that last
response. -/
theorem fetch_story_loop_bounded (env : Env) (up : Bool) (url : Str) :
    (_fetch_story env up url).reads.length ≤ 3 ∧
    (∃ u, (_fetch_story env up url).reads.getLast? = some u ∧
      (_fetch_story env up url).response = env.async_read u up) ∧
    (_fetch_story env up url).content =
      contentOf env (_fetch_story env up url).response := by
  have h := _fetch_story_aux_spec env up 2 url [] none none (by simp)
  exact ⟨le_trans h.1 (by norm_num), h.2.1, h.2.2⟩

/-! ## Helper lemmas about the extraction pipeline -/

theorem process_story_webpage_content_shape (env : Env) (feed_id : Int)
    (offset : Nat) (url text : Str) (nss : Option Nat) (c : Str)
    (h : (_process_story_webpage env feed_id offset url text nss).content = some c) :
    c = (if _MAX_STORY_CONTENT_LENGTH < (extracted_content env url text).length
      then extracted_text_content env url text
      else extracted_content env url text) := by
  rw [_process_story_webpage] at h
  split at h
  · simp at h
  · dsimp only at h
    split at h
    · simp at h
    · split at h
      · simp at h
      · simp only [StoryResult.mk.injEq] at h
        exact (Option.some.inj h).symm

theorem process_story_webpage_summary_shape (env : Env) (feed_id : Int)
    (offset : Nat) (url text : Str) (nss : Option Nat) (s : Str)
    (h : (_process_story_webpage env feed_id offset url text nss).summary = some s) :
    s = shorten (extracted_text_content env url text) _MAX_STORY_SUMMARY_LENGTH := by
  rw [_process_story_webpage] at h
  split at h
  · simp at h
  · dsimp only at h
    split at h
    · simp at h
    · split at h
      · simp at h
      · exact (Option.some.inj h).symm

/-- Claim C6: in `_process_story_webpage`, when a hint sentence count is
supplied, the extracted content is classified as not genuine full text,
and the extracted sentence count is no greater than the hint, the
pipeline returns the content-less default result (no content, summary or
sentence_count fields populated) instead of the extracted text. -/
theorem process_story_webpage_fulltext_reject (env : Env) (feed_id : Int)
    (offset : Nat) (url text : Str) (hint : Nat) (nss : Option Nat)
    (h1 : nss = some hint)
    (h2 : env.is_fulltext_content (extracted_content env url text) = false)
    (h3 : extracted_num_sentences env url text ≤ hint) :
    _process_story_webpage env feed_id offset url text nss =
      ⟨feed_id, offset, url, none, none, none, none, none, none⟩ := by
  subst h1
  rw [_process_story_webpage]
  split
  · rfl
  · dsimp only
    rw [if_pos]
    simp [h2, h3]

/-- Claim C8 counterexample: the story-HTML ceiling in the source is
`5 * 1000 * 1024 = 5,120,000` bytes, not the claimed 5,000,000. -/
theorem max_story_html_length_ne_5000000 :
    _MAX_STORY_HTML_LENGTH ≠ 5000000 := by decide

/-- Claim C8 (amended): the hard size ceilings are exactly story HTML
5,120,000 bytes, extracted content 1,024,000 bytes, summary 300
characters; content at or over the story-HTML ceiling is reduced (HTML
cleanup, then plain-text truncation) to not exceed that ceiling (content
below it passes through unchanged), content over the content ceiling is
replaced by plain text shortened to the content ceiling, and every
populated summary respects the summary ceiling. -/
theorem size_ceilings_exact :
    _MAX_STORY_HTML_LENGTH = 5120000 ∧
    _MAX_STORY_CONTENT_LENGTH = 1024000 ∧
    _MAX_STORY_SUMMARY_LENGTH = 300 ∧
    (∀ (env : Env) (content : Str), _MAX_STORY_HTML_LENGTH ≤ content.length →
      (reduce_story_html env content).length ≤ _MAX_STORY_HTML_LENGTH) ∧
    (∀ (env : Env) (content : Str), content.length < _MAX_STORY_HTML_LENGTH →
      reduce_story_html env content = content) ∧
    (∀ (env : Env) (feed_id : Int) (offset : Nat) (url text : Str)
      (nss : Option Nat) (c : Str),
      (_process_story_webpage env feed_id offset url text nss).content = some c →
      _MAX_STORY_CONTENT_LENGTH < (extracted_content env url text).length →
      c.length ≤ _MAX_STORY_CONTENT_LENGTH) ∧
    (∀ (env : Env) (feed_id : Int) (offset : Nat) (url text : Str)
      (nss : Option Nat) (s : Str),
      (_process_story_webpage env feed_id offset url text nss).summary = some s →
      s.length ≤ _MAX_STORY_SUMMARY_LENGTH) := by
  refine ⟨by decide, by decide, by decide, ?_, ?_, ?_, ?_⟩
  · intro env content h
    rw [reduce_story_html, if_pos h]
    by_cases h2 : _MAX_STORY_HTML_LENGTH ≤ (env.story_html_clean content).length
    · rw [if_pos h2]
      simp [List.length_take]
    · rw [if_neg h2]
      exact le_of_lt (lt_of_not_le h2)
  · intro env content h
    rw [reduce_story_html, if_neg (not_le_of_lt h)]
  · intro env feed_id offset url text nss c hc hover
    have := process_story_webpage_content_shape env feed_id offset url text nss c hc
    rw [if_pos hover] at this
    rw [this, extracted_text_content, shorten]
    simp [List.length_take]
  · intro env feed_id offset url text nss s hs
    have := process_story_webpage_summary_shape env feed_id offset url text nss s hs
    rw [this, shorten]
    simp [List.length_take]

/-- Claim C10: every result returned by `fetch_story` reports the
caller-supplied URL in its `url` field — the final URL produced by the
redirect-following inner fetch is discarded — and any populated content
was produced by the extraction pipeline run against the caller-supplied
URL (in particular link rewriting used that URL). -/
theorem fetch_story_reports_caller_url (env : Env) (feed_id : Int)
    (offset : Nat) (url : Str) (use_proxy : Bool) (nss : Option Nat)
    (r : StoryResult)
    (h : fetch_story env feed_id offset url use_proxy nss = some r) :
    r.url = url ∧
    (∀ c, r.content = some c → ∃ text,
      c = extracted_content env url text ∨
      c = extracted_text_content env url text) := by
  rw [fetch_story] at h
  rcases hresp : (_fetch_story env
      ((if env.is_resolved_url url then false else use_proxy) &&
        env.async_has_proxy) url).response with _ | resp
  · rw [hresp] at h
    simp at h
  · rw [hresp] at h
    dsimp only at h
    rcases hcont : (_fetch_story env
        ((if env.is_resolved_url url then false else use_proxy) &&
          env.async_has_proxy) url).content with _ | content
    · rw [hcont] at h
      replace h := Option.some.inj h
      subst h
      exact ⟨rfl, by intro c hc; simp at hc⟩
    · rw [hcont] at h
      dsimp only at h
      split at h
      · replace h := Option.some.inj h
        subst h
        exact ⟨rfl, by intro c hc; simp at hc⟩
      · replace h := Option.some.inj h
        subst h
        refine ⟨rfl, ?_⟩
        intro c hc
        simp only at hc
        have := process_story_webpage_content_shape env feed_id offset url
          (reduce_story_html env content) nss c hc
        refine ⟨reduce_story_html env content, ?_⟩
        by_cases hover : _MAX_STORY_CONTENT_LENGTH <
            (extracted_content env url (reduce_story_html env content)).length
        · rw [if_pos hover] at this
          exact Or.inr this
        · rw [if_neg hover] at this
          exact Or.inl this

/-! ## Witnesses -/

/-- Witness for claim C1: under `env1` (resolved, untagged) the proxy
decision is `false` even though the caller asked for proxy; under
`env1t` (resolved and proxy-tagged) it is `true` even though the URL is
resolved. -/
theorem sync_proxy_precedence_witness :
    (env1.is_resolved_url a1.url = true ∧ env1.is_use_proxy_url a1.url = false ∧
      decide_use_proxy env1 a1.url a1.use_proxy = false) ∧
    (env1t.is_use_proxy_url a1.url = true ∧
      decide_use_proxy env1t a1.url a1.use_proxy = true) :=
  ⟨⟨rfl, rfl, (sync_proxy_precedence env1 a1).1 rfl rfl⟩,
   ⟨rfl, (sync_proxy_precedence env1t a1).2.1 rfl⟩⟩

/-- Witness for claim C2: under `env0` the fetch fails with HTTP 500 and
the run reports exactly one `ERROR` `update_feed_info` call. -/
theorem sync_feed_failed_fetch_terminal_witness :
    ((sync_response env0 a2).ok = false ∨ (sync_response env0 a2).content = []) ∧
    sync_sink_calls env0 a2 =
      [SinkCall.update_feed_info 1 (some FeedStatus.ERROR) 500 none] ∧
    SyncEvent.rawParse ∉ sync_feed env0 a2 :=
  ⟨Or.inl rfl,
   (sync_feed_failed_fetch_terminal env0 a2 (Or.inl rfl)).1,
   (sync_feed_failed_fetch_terminal env0 a2 (Or.inl rfl)).2⟩

/-- Witness for claim C3: under `env3` the fetch succeeds with body
`"x"`, whose (identity) hash equals the stored hash, and the run reports
exactly one status-less metadata update. -/
theorem sync_feed_unchanged_hash_metadata_only_witness :
    a3.is_refresh = false ∧
    (sync_response env3 a3).ok = true ∧
    (sync_response env3 a3).content ≠ [] ∧
    a3.content_hash_base64 =
      some (env3.compute_hash_base64 (sync_response env3 a3).content) ∧
    sync_sink_calls env3 a3 = [SinkCall.update_feed_info 1 none 200 none] ∧
    SyncEvent.rawParse ∉ sync_feed env3 a3 :=
  ⟨rfl, rfl, by decide, rfl,
   (sync_feed_unchanged_hash_metadata_only env3 a3 rfl rfl (by decide) rfl).1,
   (sync_feed_unchanged_hash_metadata_only env3 a3 rfl rfl (by decide) rfl).2⟩

/-- Witness for claim C4: a feed with three stories whose middle story
fails validation still validates, keeping the other two stories in
order. -/
theorem validate_feed_story_isolation_witness :
    envV.vfeed feedV = Except.ok feedV ∧
    validate_feed envV feedV =
      Except.ok { feedV with
        storys := feedV.storys.filterMap fun s => (envV.vstory s).toOption } ∧
    (feedV.storys.filterMap fun s => (envV.vstory s).toOption) =
      [⟨1, lit "a"⟩, ⟨2, lit "c"⟩] :=
  ⟨rfl, (validate_feed_story_isolation envV feedV).1 feedV rfl, by decide⟩

/-- Witness for claim C6: with a hint of 1 sentence, non-fulltext
classification, and 1 extracted sentence, the pipeline returns the
content-less default result. -/
theorem process_story_webpage_fulltext_reject_witness :
    env0.is_fulltext_content (extracted_content env0 (lit "http://u") (lit "a")) =
      false ∧
    extracted_num_sentences env0 (lit "http://u") (lit "a") ≤ 1 ∧
    _process_story_webpage env0 1 0 (lit "http://u") (lit "a") (some 1) =
      ⟨1, 0, lit "http://u", none, none, none, none, none, none⟩ :=
  ⟨rfl, by decide,
   process_story_webpage_fulltext_reject env0 1 0 (lit "http://u") (lit "a") 1
     (some 1) rfl rfl (by decide)⟩

/-- Witness for claim C8 (amended): content exactly at the story-HTML
ceiling is reduced to at most the ceiling, and a populated summary
respects the summary ceiling. -/
theorem size_ceilings_exact_witness :
    (_MAX_STORY_HTML_LENGTH ≤ (List.replicate _MAX_STORY_HTML_LENGTH 'a').length ∧
      (reduce_story_html env0 (List.replicate _MAX_STORY_HTML_LENGTH 'a')).length ≤
        _MAX_STORY_HTML_LENGTH) ∧
    ((_process_story_webpage env0 1 0 (lit "http://u") (lit "a") none).summary =
        some (lit "a") ∧
      (lit "a").length ≤ _MAX_STORY_SUMMARY_LENGTH) :=
  ⟨⟨by simp, size_ceilings_exact.2.2.2.1 env0 _ (by simp)⟩,
   ⟨by decide,
    size_ceilings_exact.2.2.2.2.2.2 env0 1 0 (lit "http://u") (lit "a") none
      (lit "a") (by decide)⟩⟩

/-- Witness for claim C9: under `envF` discovery finds a feed whose
parse fails with `"boom"`; the run still makes exactly the progress call
and one terminal call with `feed = none` and the extra message. -/
theorem find_feed_sink_discipline_witness :
    (envF.finder_find (lit "http://u") (envF.is_use_proxy_url (lit "http://u"))).found =
      some (respOk, rawF) ∧
    _parse_found envF respOk rawF none false = Except.error (lit "boom") ∧
    find_sink_calls envF 7 (lit "http://u") =
      [SinkCall.update_feed_creation_status 7 FeedStatus.UPDATING,
       SinkCall.save_feed_creation_result 7
         ((envF.finder_find (lit "http://u")
             (envF.is_use_proxy_url (lit "http://u"))).messages ++
           [lit "invalid feed: " ++ lit "boom"]) none] :=
  ⟨rfl, rfl,
   (find_feed_sink_discipline envF 7 (lit "http://u")).2.2 respOk rawF
     (lit "boom") rfl rfl⟩

/-- Witness for claim C10: under `envB` the transport reports the final
URL `"http://v"`, yet the returned result carries the caller-supplied
URL `"http://u"`. -/
theorem fetch_story_reports_caller_url_witness :
    (_fetch_story envB false (lit "http://u")).url = lit "http://v" ∧
    fetch_story envB 1 0 (lit "http://u") false none = some c10res ∧
    c10res.url = lit "http://u" :=
  ⟨by decide, by decide,
   (fetch_story_reports_caller_url envB 1 0 (lit "http://u") false none c10res
     (by decide)).1⟩

end Rssant
